import Mathlib

/-!
# OTP lifecycle manager — shallow embedding

Embedding of the OTP module of `src/backend/src/server.js` (the
`generateOTP` / `storeOTP` / `verifyOTP` / `deleteOTP` / `getOTPInfo` /
cleanup-timer section).  Timestamps are naturals (milliseconds, as
returned by `Date.now()`); each call that reads the clock takes the
reading as an explicit parameter.  The in-memory `Map` keyed by the
normalized email is modelled as a function `String → Option OTPRecord`.
The bcrypt library is modelled by a `BcryptModel` record of two total
functions (`hash`, `compare`); theorems about code matching take the
relevant behaviour of `compare` as hypotheses.
-/

/-- `OTP_LENGTH` from the source. -/
def OTP_LENGTH : Nat := 6

/-- `OTP_EXPIRATION_MS = 5 * 60 * 1000` from the source. -/
def OTP_EXPIRATION_MS : Nat := 5 * 60 * 1000

/-- `MAX_VERIFICATION_ATTEMPTS` from the source. -/
def MAX_VERIFICATION_ATTEMPTS : Nat := 5

/-- `CLEANUP_INTERVAL_MS` from the source. -/
def CLEANUP_INTERVAL_MS : Nat := 60 * 1000

/-- A character admitted by the regex class `[^\s@]` (JS `\s` modelled by
`Char.isWhitespace`). -/
def isAtomChar (c : Char) : Bool := !c.isWhitespace && c != '@'

/-- `String.prototype.trim`: drop whitespace from both ends. -/
def trimChars (cs : List Char) : List Char :=
  ((cs.dropWhile Char.isWhitespace).reverse.dropWhile Char.isWhitespace).reverse

/-- `String.prototype.toLowerCase` (ASCII case folding). -/
def toLowerChars (cs : List Char) : List Char := cs.map Char.toLower

/-- `email.trim().toLowerCase()`, the normalized store key. -/
def normalizeEmail (s : String) : String := ⟨toLowerChars (trimChars s.data)⟩

/-- The local part `[^\s@]+` of the email regex: nonempty, no whitespace,
no `@`. -/
def localOk (cs : List Char) : Bool := !cs.isEmpty && cs.all isAtomChar

/-- The domain part `[^\s@]+\.[^\s@]+`: every character in `[^\s@]`, and a
literal `.` occurring at some position that leaves a nonempty run on each
side (i.e. neither first nor last). -/
def domainOk (cs : List Char) : Bool :=
  cs.all isAtomChar && ((cs.drop 1).dropLast.contains '.')

/-- The whole regex `^[^\s@]+@[^\s@]+\.[^\s@]+$`: split at the first `@`;
the part before must match `[^\s@]+`, the part after must match
`[^\s@]+\.[^\s@]+` (which also forces the `@` to be unique, since the
classes exclude `@`). -/
def emailRegexMatch (cs : List Char) : Bool :=
  let l := cs.takeWhile (fun c => c != '@')
  match cs.dropWhile (fun c => c != '@') with
  | [] => false
  | _ :: d => localOk l && domainOk d

/-- `isValidEmail` from the source: test the regex against
`email.trim().toLowerCase()`.  (The JS falsy check `!email` only rejects
the empty string among strings, which the regex rejects anyway.) -/
def isValidEmail (email : String) : Bool :=
  emailRegexMatch (normalizeEmail email).data

/-- `isValidOTPFormat` from the source: the regex `^\d{6}$`. -/
def isValidOTPFormat (otp : String) : Bool :=
  otp.data.length == 6 && otp.data.all Char.isDigit

/-- One entry of the store `Map`, as documented and written by the source. -/
structure OTPRecord where
  otpHash : String
  expiresAt : Nat
  attempts : Nat
  createdAt : Nat
  lastAttemptAt : Option Nat
deriving Repr, DecidableEq

/-- The `otpStore` `Map`: at most one record per key, modelled as a
function. -/
def OTPStore : Type := String → Option OTPRecord

/-- An empty store. -/
def OTPStore.empty : OTPStore := fun _ => none

/-- `Map.prototype.get`. -/
def OTPStore.get (s : OTPStore) (k : String) : Option OTPRecord := s k

/-- `Map.prototype.set`: overwrite the entry for `k`. -/
def OTPStore.set (s : OTPStore) (k : String) (v : OTPRecord) : OTPStore :=
  fun x => if x = k then some v else s x

/-- `Map.prototype.delete` (the store part; the returned boolean is modelled
where needed, in `deleteOTP`). -/
def OTPStore.del (s : OTPStore) (k : String) : OTPStore :=
  fun x => if x = k then none else s x

/-- Model of the `bcrypt` library: a salted slow `hash` (salt folded into
the function, cost passed explicitly) and a `compare` of a plaintext
against a hash.  Both total, as the source never handles a rejection from
either. -/
structure BcryptModel where
  hash : String → Nat → String
  compare : String → String → Bool

/-- The fixed dummy hash the source compares against on the not-found and
expired paths. -/
def DUMMY_HASH : String := "$2b$10$dummyhashforsecuritypurposes"

/-- The structured result `{valid, reason?}` returned by `verifyOTP`. -/
structure VerifyResult where
  valid : Bool
  reason : Option String
deriving Repr, DecidableEq

/-- `verifyOTP` from the source.  Returns the result object, the store
after the call, and the number of `bcrypt.compare` invocations the call
performed (the observable cost the timing-safety comments are about).
`now` is the `Date.now()` reading of the call.  The source mutates the
record object held in the `Map` in place when incrementing `attempts`;
the final `otpStore.set(normalizedEmail, stored)` on the mismatch path is
therefore a second write of the same entry, mirrored here. -/
def verifyOTP (B : BcryptModel) (now : Nat) (store : OTPStore)
    (email otp : String) : VerifyResult × OTPStore × Nat :=
  if !isValidEmail email then
    (⟨false, some "Invalid email format"⟩, store, 0)
  else if !isValidOTPFormat otp then
    (⟨false, some "Invalid OTP format"⟩, store, 0)
  else
    let normalizedEmail := normalizeEmail email
    match store.get normalizedEmail with
    | none =>
        -- dummy comparison; the source discards its result
        let _ := B.compare otp DUMMY_HASH
        (⟨false, some "OTP not found or expired"⟩, store, 1)
    | some stored =>
        if now > stored.expiresAt then
          let _ := B.compare otp DUMMY_HASH
          (⟨false, some "OTP expired"⟩, store.del normalizedEmail, 1)
        else if stored.attempts ≥ MAX_VERIFICATION_ATTEMPTS then
          (⟨false, some "Maximum verification attempts exceeded"⟩,
            store.del normalizedEmail, 0)
        else
          let stored1 : OTPRecord :=
            { stored with attempts := stored.attempts + 1, lastAttemptAt := some now }
          let store1 := store.set normalizedEmail stored1
          if B.compare otp stored.otpHash then
            (⟨true, none⟩, store1.del normalizedEmail, 1)
          else
            (⟨false, some "Invalid OTP"⟩, store1.set normalizedEmail stored1, 1)

/-- `storeOTP` from the source.  `tNow` is the `Date.now()` reading used
for `expiresAt`/`createdAt` (two adjacent calls in the source), `tClean`
the later reading inside the post-store cleanup check.  Throwing is
modelled by `Except.error` with the thrown message. -/
def storeOTP (B : BcryptModel) (tNow tClean : Nat) (store : OTPStore)
    (email otp : String) : Except String OTPStore :=
  if !isValidEmail email then .error "Invalid email format"
  else if !isValidOTPFormat otp then .error "Invalid OTP format"
  else
    let normalizedEmail := normalizeEmail email
    let expiresAt := tNow + OTP_EXPIRATION_MS
    let createdAt := tNow
    let otpHash := B.hash otp 10
    let store1 := store.set normalizedEmail
      ⟨otpHash, expiresAt, 0, createdAt, none⟩
    match store1.get normalizedEmail with
    | some existing =>
        if tClean > existing.expiresAt then .ok (store1.del normalizedEmail)
        else .ok store1
    | none => .ok store1

/-- `deleteOTP` from the source: returns the `Map.delete` boolean and the
resulting store. -/
def deleteOTP (store : OTPStore) (email : String) : Bool × OTPStore :=
  if !isValidEmail email then (false, store)
  else
    let normalizedEmail := normalizeEmail email
    match store.get normalizedEmail with
    | some _ => (true, store.del normalizedEmail)
    | none => (false, store)

/-- The metadata object returned by `getOTPInfo`; by construction it has no
field for the stored hash. -/
structure OTPInfo where
  email : String
  expiresAt : Nat
  attempts : Nat
  remainingAttempts : Int
  isExpired : Bool
  createdAt : Nat
  lastAttemptAt : Option Nat
deriving Repr, DecidableEq

/-- `getOTPInfo` from the source. -/
def getOTPInfo (now : Nat) (store : OTPStore) (email : String) : Option OTPInfo :=
  if !isValidEmail email then none
  else
    let normalizedEmail := normalizeEmail email
    match store.get normalizedEmail with
    | none => none
    | some stored =>
        some ⟨normalizedEmail, stored.expiresAt, stored.attempts,
          (MAX_VERIFICATION_ATTEMPTS : Int) - (stored.attempts : Int),
          decide (now > stored.expiresAt), stored.createdAt, stored.lastAttemptAt⟩

/-- One tick of the cleanup timer (`startCleanupTimer`'s callback): evict
every entry with `now > expiresAt`. -/
def cleanupTick (now : Nat) (store : OTPStore) : OTPStore := fun k =>
  match store k with
  | some r => if now > r.expiresAt then none else some r
  | none => none

/-- Left-pad a digit list with zeros to the given length
(`String.prototype.padStart(len, "0")` on the digit string). -/
def padStartZeros (len : Nat) (ds : List Nat) : List Nat :=
  List.replicate (len - ds.length) 0 ++ ds

/-- The decimal digits of `n`, most significant first (`n.toString()` as a
list of digit values). -/
def decimalDigitsOf (n : Nat) : List Nat := (Nat.digits 10 n).reverse

/-- `generateOTP` from the source, as a function of the draw `n` returned
by `crypto.randomInt(100000, 1000000)` (a uniform draw in
`[100000, 999999]`): `n.toString().padStart(OTP_LENGTH, "0")`, represented
as the list of digit values of the produced string. -/
def generateOTP (n : Nat) : List Nat := padStartZeros OTP_LENGTH (decimalDigitsOf n)

/-- The numeric value of a digit string (most significant first). -/
def digitsValue (ds : List Nat) : Nat := Nat.ofDigits 10 ds.reverse

/-- A concrete executable bcrypt model used by witnesses and
counterexamples: collision-free tagging.  A 6-digit code never compares
equal to `DUMMY_HASH` under it. -/
def bcryptRef : BcryptModel :=
  ⟨fun s _cost => "$ref$" ++ s, fun s h => h == "$ref$" ++ s⟩

-- Store laws (shared helper lemmas)

theorem OTPStore.get_set_self (s : OTPStore) (k : String) (v : OTPRecord) :
    (s.set k v).get k = some v := by
  simp [OTPStore.get, OTPStore.set]

theorem OTPStore.get_set_ne (s : OTPStore) (k k' : String) (v : OTPRecord)
    (h : k' ≠ k) : (s.set k v).get k' = s.get k' := by
  simp [OTPStore.get, OTPStore.set, h]

theorem OTPStore.get_del_self (s : OTPStore) (k : String) :
    (s.del k).get k = none := by
  simp [OTPStore.get, OTPStore.del]

theorem OTPStore.get_del_ne (s : OTPStore) (k k' : String) (h : k' ≠ k) :
    (s.del k).get k' = s.get k' := by
  simp [OTPStore.get, OTPStore.del, h]

theorem OTPStore.set_set (s : OTPStore) (k : String) (v w : OTPRecord) :
    (s.set k v).set k w = s.set k w := by
  funext x
  by_cases h : x = k <;> simp [OTPStore.set, h]

theorem OTPStore.del_set (s : OTPStore) (k : String) (v : OTPRecord) :
    (s.set k v).del k = s.del k := by
  funext x
  by_cases h : x = k <;> simp [OTPStore.set, OTPStore.del, h]

-- Branch lemmas for verifyOTP (shared helpers)

theorem verifyOTP_notFound (B : BcryptModel) (now : Nat) (store : OTPStore)
    (email otp : String) (hE : isValidEmail email = true)
    (hO : isValidOTPFormat otp = true)
    (hGet : store.get (normalizeEmail email) = none) :
    verifyOTP B now store email otp =
      (⟨false, some "OTP not found or expired"⟩, store, 1) := by
  simp [verifyOTP, hE, hO, hGet]

theorem verifyOTP_expired (B : BcryptModel) (now : Nat) (store : OTPStore)
    (email otp : String) (r : OTPRecord) (hE : isValidEmail email = true)
    (hO : isValidOTPFormat otp = true)
    (hGet : store.get (normalizeEmail email) = some r)
    (hExp : r.expiresAt < now) :
    verifyOTP B now store email otp =
      (⟨false, some "OTP expired"⟩, store.del (normalizeEmail email), 1) := by
  simp [verifyOTP, hE, hO, hGet, hExp]

theorem verifyOTP_exceeded (B : BcryptModel) (now : Nat) (store : OTPStore)
    (email otp : String) (r : OTPRecord) (hE : isValidEmail email = true)
    (hO : isValidOTPFormat otp = true)
    (hGet : store.get (normalizeEmail email) = some r)
    (hNotExp : ¬ r.expiresAt < now)
    (hAtt : MAX_VERIFICATION_ATTEMPTS ≤ r.attempts) :
    verifyOTP B now store email otp =
      (⟨false, some "Maximum verification attempts exceeded"⟩,
        store.del (normalizeEmail email), 0) := by
  simp [verifyOTP, hE, hO, hGet, hNotExp, hAtt]

theorem verifyOTP_matched (B : BcryptModel) (now : Nat) (store : OTPStore)
    (email otp : String) (r : OTPRecord) (hE : isValidEmail email = true)
    (hO : isValidOTPFormat otp = true)
    (hGet : store.get (normalizeEmail email) = some r)
    (hNotExp : ¬ r.expiresAt < now)
    (hAtt : r.attempts < MAX_VERIFICATION_ATTEMPTS)
    (hCmp : B.compare otp r.otpHash = true) :
    verifyOTP B now store email otp =
      (⟨true, none⟩, store.del (normalizeEmail email), 1) := by
  simp [verifyOTP, hE, hO, hGet, hNotExp, Nat.not_le.mpr hAtt, hCmp,
    OTPStore.del_set]

theorem verifyOTP_mismatched (B : BcryptModel) (now : Nat) (store : OTPStore)
    (email otp : String) (r : OTPRecord) (hE : isValidEmail email = true)
    (hO : isValidOTPFormat otp = true)
    (hGet : store.get (normalizeEmail email) = some r)
    (hNotExp : ¬ r.expiresAt < now)
    (hAtt : r.attempts < MAX_VERIFICATION_ATTEMPTS)
    (hCmp : B.compare otp r.otpHash = false) :
    verifyOTP B now store email otp =
      (⟨false, some "Invalid OTP"⟩,
        store.set (normalizeEmail email)
          { r with attempts := r.attempts + 1, lastAttemptAt := some now }, 1) := by
  simp [verifyOTP, hE, hO, hGet, hNotExp, Nat.not_le.mpr hAtt, hCmp,
    OTPStore.set_set]

-- Concrete fixtures for witnesses and counterexamples

/-- A freshly stored record for `"a@b.com"` under `bcryptRef`: code
`"482193"`, expiry at 1000 ms, no attempts yet. -/
def wrec : OTPRecord := ⟨bcryptRef.hash "482193" 10, 1000, 0, 0, none⟩

/-- A one-entry store holding `wrec` under the key `"a@b.com"`. -/
def wstore : OTPStore := OTPStore.set OTPStore.empty "a@b.com" wrec

/-- The same record with the attempt budget already spent. -/
def wrecMax : OTPRecord := ⟨bcryptRef.hash "482193" 10, 1000, 5, 0, some 10⟩

/-- A one-entry store holding `wrecMax`. -/
def wstoreMax : OTPStore := OTPStore.set OTPStore.empty "a@b.com" wrecMax

/-- The same record with four attempts already consumed. -/
def wrec4 : OTPRecord := ⟨bcryptRef.hash "482193" 10, 1000, 4, 0, some 4⟩

/-- A one-entry store holding `wrec4`. -/
def wstore4 : OTPStore := OTPStore.set OTPStore.empty "a@b.com" wrec4

/-- C3: a verify call with the correct code against a stored, un-expired,
within-budget record returns `{valid := true}`, removes the record, and an
immediately subsequent verify call with the same identity and code (at any
later reading `now2`) reports the not-found outcome — the code is
single-use. -/
theorem verify_valid_single_use (B : BcryptModel) (now now2 : Nat)
    (store : OTPStore) (email otp : String) (r : OTPRecord)
    (hE : isValidEmail email = true) (hO : isValidOTPFormat otp = true)
    (hGet : store.get (normalizeEmail email) = some r)
    (hNotExp : ¬ r.expiresAt < now)
    (hAtt : r.attempts < MAX_VERIFICATION_ATTEMPTS)
    (hCmp : B.compare otp r.otpHash = true) :
    (verifyOTP B now store email otp).1 = ⟨true, none⟩ ∧
    (verifyOTP B now store email otp).2.1.get (normalizeEmail email) = none ∧
    (verifyOTP B now2 (verifyOTP B now store email otp).2.1 email otp).1 =
      ⟨false, some "OTP not found or expired"⟩ := by
  have h1 := verifyOTP_matched B now store email otp r hE hO hGet hNotExp hAtt hCmp
  refine ⟨by rw [h1], ?_, ?_⟩
  · rw [h1]
    exact OTPStore.get_del_self store _
  · rw [h1]
    rw [verifyOTP_notFound B now2 (store.del (normalizeEmail email)) email otp hE hO
      (OTPStore.get_del_self store _)]

/-- Witness for C3 at the concrete fixture. -/
theorem verify_valid_single_use_witness :
    (isValidEmail "a@b.com" = true ∧ isValidOTPFormat "482193" = true ∧
      wstore.get (normalizeEmail "a@b.com") = some wrec ∧
      ¬ wrec.expiresAt < 5 ∧ wrec.attempts < MAX_VERIFICATION_ATTEMPTS ∧
      bcryptRef.compare "482193" wrec.otpHash = true) ∧
    ((verifyOTP bcryptRef 5 wstore "a@b.com" "482193").1 = ⟨true, none⟩ ∧
      (verifyOTP bcryptRef 5 wstore "a@b.com" "482193").2.1.get
        (normalizeEmail "a@b.com") = none ∧
      (verifyOTP bcryptRef 6 (verifyOTP bcryptRef 5 wstore "a@b.com" "482193").2.1
        "a@b.com" "482193").1 = ⟨false, some "OTP not found or expired"⟩) :=
  ⟨⟨by decide, by decide, by decide, by decide, by decide, by decide⟩,
    verify_valid_single_use bcryptRef 5 6 wstore "a@b.com" "482193" wrec
      (by decide) (by decide) (by decide) (by decide) (by decide) (by decide)⟩

/-- C4 counterexample: at the instant `now = expiresAt` exactly, the source
(`Date.now() > stored.expiresAt`, strict) does NOT treat the record as
expired: a wrong-code call at that instant reports the mismatch outcome and
leaves the record in the store, contradicting the claim that `now =
expiresAt` yields `Expired` and deletes the record. -/
theorem verify_at_expiry_instant_cex :
    (verifyOTP bcryptRef 1000 wstore "a@b.com" "000000").1 ≠
      ⟨false, some "OTP expired"⟩ ∧
    (verifyOTP bcryptRef 1000 wstore "a@b.com" "000000").1 =
      ⟨false, some "Invalid OTP"⟩ ∧
    (verifyOTP bcryptRef 1000 wstore "a@b.com" "000000").2.1.get "a@b.com" ≠
      none := by decide

/-- C4 as amended: a verify call on a stored record is the expiry path
exactly when `now > expiresAt` STRICTLY; then it deletes the record and
reports the expired outcome (after the dummy comparison). -/
theorem verify_expired_strict (B : BcryptModel) (now : Nat) (store : OTPStore)
    (email otp : String) (r : OTPRecord) (hE : isValidEmail email = true)
    (hO : isValidOTPFormat otp = true)
    (hGet : store.get (normalizeEmail email) = some r)
    (hExp : r.expiresAt < now) :
    verifyOTP B now store email otp =
      (⟨false, some "OTP expired"⟩, store.del (normalizeEmail email), 1) ∧
    (verifyOTP B now store email otp).2.1.get (normalizeEmail email) = none := by
  have h1 := verifyOTP_expired B now store email otp r hE hO hGet hExp
  exact ⟨h1, by rw [h1]; exact OTPStore.get_del_self store _⟩

/-- Witness for the amended C4 at the concrete fixture (`now = 2000`,
strictly past the expiry 1000). -/
theorem verify_expired_strict_witness :
    (isValidEmail "a@b.com" = true ∧ isValidOTPFormat "000000" = true ∧
      wstore.get (normalizeEmail "a@b.com") = some wrec ∧ wrec.expiresAt < 2000) ∧
    (verifyOTP bcryptRef 2000 wstore "a@b.com" "000000" =
      (⟨false, some "OTP expired"⟩, wstore.del (normalizeEmail "a@b.com"), 1) ∧
      (verifyOTP bcryptRef 2000 wstore "a@b.com" "000000").2.1.get
        (normalizeEmail "a@b.com") = none) :=
  ⟨⟨by decide, by decide, by decide, by decide⟩,
    verify_expired_strict bcryptRef 2000 wstore "a@b.com" "000000" wrec
      (by decide) (by decide) (by decide) (by decide)⟩

/-- C5 counterexample: for a record whose ttl has elapsed (expiry 1000,
`now = 2000`) and which no sweep or verify has touched, `getOTPInfo` does
NOT report absent: it returns the metadata object, flagged
`isExpired = true`, contradicting the claim that `inspect` reports absent
after expiry regardless of the sweeper. -/
theorem inspect_expired_cex :
    getOTPInfo 2000 wstore "a@b.com" ≠ none ∧
    (getOTPInfo 2000 wstore "a@b.com").map OTPInfo.isExpired = some true := by
  decide

/-- C5 as amended: while an expired record is still stored (not yet swept
and not yet touched by a verify call), `inspect` returns its metadata with
`isExpired = now > expiresAt` rather than absent; it reports absent once
the sweeper has run (one `cleanupTick` at any `now` past the expiry evicts
it). -/
theorem inspect_expired_reports_metadata (now : Nat) (store : OTPStore)
    (email : String) (r : OTPRecord) (hE : isValidEmail email = true)
    (hGet : store.get (normalizeEmail email) = some r) :
    getOTPInfo now store email =
      some ⟨normalizeEmail email, r.expiresAt, r.attempts,
        (MAX_VERIFICATION_ATTEMPTS : Int) - (r.attempts : Int),
        decide (now > r.expiresAt), r.createdAt, r.lastAttemptAt⟩ ∧
    (r.expiresAt < now → getOTPInfo now (cleanupTick now store) email = none) := by
  constructor
  · simp [getOTPInfo, hE, hGet]
  · intro hExp
    have hGet' : (cleanupTick now store).get (normalizeEmail email) = none := by
      simp only [OTPStore.get] at hGet
      simp [cleanupTick, OTPStore.get, hGet, hExp]
    simp [getOTPInfo, hE, hGet']

/-- Witness for the amended C5 at the concrete fixture. -/
theorem inspect_expired_reports_metadata_witness :
    (isValidEmail "a@b.com" = true ∧
      wstore.get (normalizeEmail "a@b.com") = some wrec) ∧
    (getOTPInfo 2000 wstore "a@b.com" =
      some ⟨normalizeEmail "a@b.com", wrec.expiresAt, wrec.attempts,
        (MAX_VERIFICATION_ATTEMPTS : Int) - (wrec.attempts : Int),
        decide ((2000:Nat) > wrec.expiresAt), wrec.createdAt, wrec.lastAttemptAt⟩ ∧
      (wrec.expiresAt < 2000 →
        getOTPInfo 2000 (cleanupTick 2000 wstore) "a@b.com" = none)) :=
  ⟨⟨by decide, by decide⟩,
    inspect_expired_reports_metadata 2000 wstore "a@b.com" wrec
      (by decide) (by decide)⟩

/-- C2 counterexample: a wrong-code verify call against a record with four
consumed attempts returns the mismatch outcome and leaves the record stored
with `attempts = MAX_VERIFICATION_ATTEMPTS`, so a record at the attempt
budget persists after a verify call returns, contradicting the claim that
reaching the budget always removes the record. -/
theorem exhaustion_not_terminal_cex :
    (verifyOTP bcryptRef 5 wstore4 "a@b.com" "000000").1 =
      ⟨false, some "Invalid OTP"⟩ ∧
    ((verifyOTP bcryptRef 5 wstore4 "a@b.com" "000000").2.1.get "a@b.com").map
      OTPRecord.attempts = some MAX_VERIFICATION_ATTEMPTS := by decide

/-- C2 as amended: after a verify call with well-formed inputs on a stored
record, the attempts counter of any record left for that identity never
exceeds `MAX_VERIFICATION_ATTEMPTS` (a mismatch at `attempts = max - 1` may
leave it stored AT the budget), and a call that finds the record already at
or past the budget removes it — exhaustion is terminal one call later, not
within the call that spends the last attempt. -/
theorem attempts_bounded_and_exhaustion_terminal (B : BcryptModel) (now : Nat)
    (store : OTPStore) (email otp : String) (r : OTPRecord)
    (hE : isValidEmail email = true) (hO : isValidOTPFormat otp = true)
    (hGet : store.get (normalizeEmail email) = some r) :
    (MAX_VERIFICATION_ATTEMPTS ≤ r.attempts →
      (verifyOTP B now store email otp).2.1.get (normalizeEmail email) = none) ∧
    (∀ r', (verifyOTP B now store email otp).2.1.get (normalizeEmail email) =
      some r' → r'.attempts ≤ MAX_VERIFICATION_ATTEMPTS) := by
  by_cases hExp : r.expiresAt < now
  · rw [verifyOTP_expired B now store email otp r hE hO hGet hExp]
    refine ⟨fun _ => OTPStore.get_del_self store _, fun r' h => ?_⟩
    rw [OTPStore.get_del_self] at h
    exact absurd h (by simp)
  · by_cases hAtt : MAX_VERIFICATION_ATTEMPTS ≤ r.attempts
    · rw [verifyOTP_exceeded B now store email otp r hE hO hGet hExp hAtt]
      refine ⟨fun _ => OTPStore.get_del_self store _, fun r' h => ?_⟩
      rw [OTPStore.get_del_self] at h
      exact absurd h (by simp)
    · have hAtt' : r.attempts < MAX_VERIFICATION_ATTEMPTS := Nat.lt_of_not_le hAtt
      refine ⟨fun h => absurd h hAtt, fun r' h => ?_⟩
      cases hCmp : B.compare otp r.otpHash
      · rw [verifyOTP_mismatched B now store email otp r hE hO hGet hExp hAtt' hCmp,
          OTPStore.get_set_self] at h
        injection h with h2
        rw [← h2]
        exact hAtt'
      · rw [verifyOTP_matched B now store email otp r hE hO hGet hExp hAtt' hCmp,
          OTPStore.get_del_self] at h
        exact absurd h (by simp)

/-- Witness for the amended C2 at the concrete fixture (record already at
the budget is removed by the next call). -/
theorem attempts_bounded_and_exhaustion_terminal_witness :
    (isValidEmail "a@b.com" = true ∧ isValidOTPFormat "482193" = true ∧
      wstoreMax.get (normalizeEmail "a@b.com") = some wrecMax) ∧
    ((MAX_VERIFICATION_ATTEMPTS ≤ wrecMax.attempts →
      (verifyOTP bcryptRef 20 wstoreMax "a@b.com" "482193").2.1.get
        (normalizeEmail "a@b.com") = none) ∧
    (∀ r', (verifyOTP bcryptRef 20 wstoreMax "a@b.com" "482193").2.1.get
      (normalizeEmail "a@b.com") = some r' →
      r'.attempts ≤ MAX_VERIFICATION_ATTEMPTS)) :=
  ⟨⟨by decide, by decide, by decide⟩,
    attempts_bounded_and_exhaustion_terminal bcryptRef 20 wstoreMax "a@b.com"
      "482193" wrecMax (by decide) (by decide) (by decide)⟩

/-- C6 counterexample: a verify call that reports the attempts-exceeded
outcome (a non-Valid outcome, well-formed inputs) performs ZERO hash
comparisons, while the mismatch path performs one — the AttemptsExceeded
branch skips the comparison, contradicting the claim that every non-match
branch performs one. -/
theorem comparison_skipped_on_exhaustion_cex :
    (verifyOTP bcryptRef 20 wstoreMax "a@b.com" "482193").1 =
      ⟨false, some "Maximum verification attempts exceeded"⟩ ∧
    (verifyOTP bcryptRef 20 wstoreMax "a@b.com" "482193").2.2 = 0 ∧
    (verifyOTP bcryptRef 20 wstore "a@b.com" "000000").1 =
      ⟨false, some "Invalid OTP"⟩ ∧
    (verifyOTP bcryptRef 20 wstore "a@b.com" "000000").2.2 = 1 := by decide

/-- C6 as amended: with well-formed inputs, the not-found and expired
branches each perform exactly one (dummy) hash comparison and the match and
mismatch paths perform exactly one real comparison, but the
attempts-exceeded branch performs none. -/
theorem verify_comparison_counts (B : BcryptModel) (now : Nat)
    (store : OTPStore) (email otp : String) (hE : isValidEmail email = true)
    (hO : isValidOTPFormat otp = true) :
    (store.get (normalizeEmail email) = none →
      (verifyOTP B now store email otp).2.2 = 1) ∧
    (∀ r, store.get (normalizeEmail email) = some r → r.expiresAt < now →
      (verifyOTP B now store email otp).2.2 = 1) ∧
    (∀ r, store.get (normalizeEmail email) = some r → ¬ r.expiresAt < now →
      MAX_VERIFICATION_ATTEMPTS ≤ r.attempts →
      (verifyOTP B now store email otp).2.2 = 0) ∧
    (∀ r, store.get (normalizeEmail email) = some r → ¬ r.expiresAt < now →
      r.attempts < MAX_VERIFICATION_ATTEMPTS →
      (verifyOTP B now store email otp).2.2 = 1) := by
  refine ⟨fun h => by rw [verifyOTP_notFound B now store email otp hE hO h],
    fun r h hExp => by rw [verifyOTP_expired B now store email otp r hE hO h hExp],
    fun r h hExp hAtt => by
      rw [verifyOTP_exceeded B now store email otp r hE hO h hExp hAtt],
    fun r h hExp hAtt => ?_⟩
  cases hCmp : B.compare otp r.otpHash
  · rw [verifyOTP_mismatched B now store email otp r hE hO h hExp hAtt hCmp]
  · rw [verifyOTP_matched B now store email otp r hE hO h hExp hAtt hCmp]

/-- Witness for the amended C6: on an empty store the not-found path
performs exactly one comparison. -/
theorem verify_comparison_counts_witness :
    (isValidEmail "a@b.com" = true ∧ isValidOTPFormat "000000" = true ∧
      OTPStore.empty.get (normalizeEmail "a@b.com") = none) ∧
    (verifyOTP bcryptRef 5 OTPStore.empty "a@b.com" "000000").2.2 = 1 :=
  ⟨⟨by decide, by decide, rfl⟩,
    (verify_comparison_counts bcryptRef 5 OTPStore.empty "a@b.com" "000000"
      (by decide) (by decide)).1 rfl⟩

/-- C7: a successful `storeOTP` call (valid email, valid 6-digit code,
cleanup clock reading within the ttl of the storing reading) maps the
normalized email to exactly the fresh record — hash of the code,
`expiresAt = tNow + OTP_EXPIRATION_MS`, `attempts = 0` — overwriting any
prior entry (the store is keyed, so exactly one record per identity); in
particular the post-store expired-entry cleanup branch does not delete the
freshly stored record. -/
theorem storeOTP_fresh_overwrite (B : BcryptModel) (tNow tClean : Nat)
    (store : OTPStore) (email otp : String)
    (hE : isValidEmail email = true) (hO : isValidOTPFormat otp = true)
    (hT : tClean ≤ tNow + OTP_EXPIRATION_MS) :
    storeOTP B tNow tClean store email otp =
      .ok (store.set (normalizeEmail email)
        ⟨B.hash otp 10, tNow + OTP_EXPIRATION_MS, 0, tNow, none⟩) ∧
    (store.set (normalizeEmail email)
      ⟨B.hash otp 10, tNow + OTP_EXPIRATION_MS, 0, tNow, none⟩).get
        (normalizeEmail email) =
      some ⟨B.hash otp 10, tNow + OTP_EXPIRATION_MS, 0, tNow, none⟩ := by
  refine ⟨?_, OTPStore.get_set_self store _ _⟩
  simp [storeOTP, hE, hO, OTPStore.get_set_self, Nat.not_lt.mpr hT]

/-- Witness for C7 at the concrete fixture. -/
theorem storeOTP_fresh_overwrite_witness :
    (isValidEmail "a@b.com" = true ∧ isValidOTPFormat "482193" = true ∧
      (0:Nat) ≤ 0 + OTP_EXPIRATION_MS) ∧
    (storeOTP bcryptRef 0 0 OTPStore.empty "a@b.com" "482193" =
      .ok (OTPStore.empty.set (normalizeEmail "a@b.com")
        ⟨bcryptRef.hash "482193" 10, 0 + OTP_EXPIRATION_MS, 0, 0, none⟩) ∧
    (OTPStore.empty.set (normalizeEmail "a@b.com")
      ⟨bcryptRef.hash "482193" 10, 0 + OTP_EXPIRATION_MS, 0, 0, none⟩).get
        (normalizeEmail "a@b.com") =
      some ⟨bcryptRef.hash "482193" 10, 0 + OTP_EXPIRATION_MS, 0, 0, none⟩) :=
  ⟨⟨by decide, by decide, by decide⟩,
    storeOTP_fresh_overwrite bcryptRef 0 0 OTPStore.empty "a@b.com" "482193"
      (by decide) (by decide) (by decide)⟩

/-- C9: `getOTPInfo` is independent of the stored hash — its output on two
stores that differ only in the `otpHash` field of the inspected identity's
record is identical (and the returned `OTPInfo` structure has no hash
field at all), so the metadata never contains or depends on `codeHash`. -/
theorem inspect_independent_of_hash (now : Nat) (store : OTPStore)
    (email hashv : String) (r : OTPRecord) :
    getOTPInfo now (store.set (normalizeEmail email)
        { r with otpHash := hashv }) email =
      getOTPInfo now (store.set (normalizeEmail email) r) email := by
  cases hE : isValidEmail email
  · simp [getOTPInfo, hE]
  · simp [getOTPInfo, hE, OTPStore.get_set_self]

/-- C10: `verifyOTP` is total on arbitrary string inputs and always returns
a structured result: `valid = true` happens only with well-formed inputs, a
record present for the normalized identity, and a successful hash
comparison of the supplied code against the stored hash; every `valid =
false` outcome (validation failure, not found, expired, attempts exceeded,
mismatch) carries a `reason`. -/
theorem verifyOTP_total_structured (B : BcryptModel) (now : Nat)
    (store : OTPStore) (email otp : String) :
    ((verifyOTP B now store email otp).1.valid = true →
      (verifyOTP B now store email otp).1.reason = none ∧
      isValidEmail email = true ∧ isValidOTPFormat otp = true ∧
      ∃ r, store.get (normalizeEmail email) = some r ∧
        B.compare otp r.otpHash = true) ∧
    ((verifyOTP B now store email otp).1.valid = false →
      ∃ m, (verifyOTP B now store email otp).1.reason = some m) := by
  cases hE : isValidEmail email with
  | false =>
      have hv : verifyOTP B now store email otp =
          (⟨false, some "Invalid email format"⟩, store, 0) := by
        simp [verifyOTP, hE]
      rw [hv]
      exact ⟨fun h => by simp at h, fun _ => ⟨_, rfl⟩⟩
  | true =>
      cases hO : isValidOTPFormat otp with
      | false =>
          have hv : verifyOTP B now store email otp =
              (⟨false, some "Invalid OTP format"⟩, store, 0) := by
            simp [verifyOTP, hE, hO]
          rw [hv]
          exact ⟨fun h => by simp at h, fun _ => ⟨_, rfl⟩⟩
      | true =>
          cases hGet : store.get (normalizeEmail email) with
          | none =>
              rw [verifyOTP_notFound B now store email otp hE hO hGet]
              exact ⟨fun h => by simp at h, fun _ => ⟨_, rfl⟩⟩
          | some r =>
              by_cases hExp : r.expiresAt < now
              · rw [verifyOTP_expired B now store email otp r hE hO hGet hExp]
                exact ⟨fun h => by simp at h, fun _ => ⟨_, rfl⟩⟩
              · by_cases hAtt : MAX_VERIFICATION_ATTEMPTS ≤ r.attempts
                · rw [verifyOTP_exceeded B now store email otp r hE hO hGet hExp hAtt]
                  exact ⟨fun h => by simp at h, fun _ => ⟨_, rfl⟩⟩
                · have hAtt' : r.attempts < MAX_VERIFICATION_ATTEMPTS :=
                    Nat.lt_of_not_le hAtt
                  cases hCmp : B.compare otp r.otpHash
                  · rw [verifyOTP_mismatched B now store email otp r hE hO hGet
                      hExp hAtt' hCmp]
                    exact ⟨fun h => by simp at h, fun _ => ⟨_, rfl⟩⟩
                  · rw [verifyOTP_matched B now store email otp r hE hO hGet
                      hExp hAtt' hCmp]
                    exact ⟨fun _ => ⟨rfl, rfl, rfl, r, rfl, hCmp⟩,
                      fun h => by simp at h⟩

/-- Witness for C10: at a concrete matching input the implication's
hypothesis `valid = true` holds and the theorem yields the structured
conclusion. -/
theorem verifyOTP_total_structured_witness :
    (verifyOTP bcryptRef 5 wstore "a@b.com" "482193").1.valid = true ∧
    ((verifyOTP bcryptRef 5 wstore "a@b.com" "482193").1.reason = none ∧
      isValidEmail "a@b.com" = true ∧ isValidOTPFormat "482193" = true ∧
      ∃ r, wstore.get (normalizeEmail "a@b.com") = some r ∧
        bcryptRef.compare "482193" r.otpHash = true) :=
  ⟨by decide,
    (verifyOTP_total_structured bcryptRef 5 wstore "a@b.com" "482193").1
      (by decide)⟩

/-- C8: for any draw `n` that `crypto.randomInt(100000, 1000000)` can
return (i.e. `100000 ≤ n ≤ 999999`), the produced code is a string of
exactly `OTP_LENGTH = 6` decimal digits whose numeric value is `n` itself,
hence within `[10^5, 10^6 - 1] = [100000, 999999]`. -/
theorem generateOTP_six_digits (n : Nat) (h1 : 100000 ≤ n) (h2 : n ≤ 999999) :
    (generateOTP n).length = OTP_LENGTH ∧
    (∀ d ∈ generateOTP n, d < 10) ∧
    digitsValue (generateOTP n) = n ∧
    100000 ≤ digitsValue (generateOTP n) ∧
    digitsValue (generateOTP n) ≤ 999999 := by
  have hn : n ≠ 0 := by omega
  have hlog : Nat.log 10 n = 5 := by
    apply Nat.log_eq_of_pow_le_of_lt_pow
    · norm_num
      omega
    · norm_num
      omega
  have hlen : (Nat.digits 10 n).length = 6 := by
    rw [Nat.digits_len 10 n (by norm_num) hn, hlog]
  have hlen' : (decimalDigitsOf n).length = 6 := by
    simp [decimalDigitsOf, hlen]
  have hgen : generateOTP n = decimalDigitsOf n := by
    simp [generateOTP, padStartZeros, hlen', OTP_LENGTH]
  have hval : digitsValue (generateOTP n) = n := by
    rw [hgen]
    simp [digitsValue, decimalDigitsOf, Nat.ofDigits_digits]
  refine ⟨?_, ?_, hval, ?_, ?_⟩
  · rw [hgen, hlen']
    rfl
  · intro d hd
    rw [hgen] at hd
    exact Nat.digits_lt_base (by norm_num) (List.mem_reverse.mp hd)
  · rw [hval]
    exact h1
  · rw [hval]
    exact h2

/-- Witness for C8 at the draw 482193. -/
theorem generateOTP_six_digits_witness :
    ((100000:Nat) ≤ 482193 ∧ (482193:Nat) ≤ 999999) ∧
    ((generateOTP 482193).length = OTP_LENGTH ∧
      (∀ d ∈ generateOTP 482193, d < 10) ∧
      digitsValue (generateOTP 482193) = 482193 ∧
      100000 ≤ digitsValue (generateOTP 482193) ∧
      digitsValue (generateOTP 482193) ≤ 999999) :=
  ⟨⟨by decide, by decide⟩,
    generateOTP_six_digits 482193 (by decide) (by decide)⟩

/-- The store left behind by one verify call (used to chain calls). -/
def verifyStore (B : BcryptModel) (now : Nat) (email otp : String)
    (s : OTPStore) : OTPStore := (verifyOTP B now s email otp).2.1

/-- The store after `k` successive verify calls with the same inputs. -/
def verifyIter (B : BcryptModel) (now : Nat) (email otp : String) :
    Nat → OTPStore → OTPStore
  | 0, s => s
  | k + 1, s => verifyStore B now email otp (verifyIter B now email otp k s)

/-- After `k ≤ MAX_VERIFICATION_ATTEMPTS` wrong-code calls against a fresh
record, the record is still stored with `attempts = k` and its hash,
expiry and creation time unchanged. -/
theorem verifyIter_wrong_get (B : BcryptModel) (now : Nat) (store : OTPStore)
    (email wrong : String) (r : OTPRecord)
    (hE : isValidEmail email = true) (hO : isValidOTPFormat wrong = true)
    (hGet : store.get (normalizeEmail email) = some r)
    (h0 : r.attempts = 0) (hNotExp : ¬ r.expiresAt < now)
    (hW : B.compare wrong r.otpHash = false) :
    ∀ k, k ≤ MAX_VERIFICATION_ATTEMPTS →
      ∃ la, (verifyIter B now email wrong k store).get (normalizeEmail email) =
        some ⟨r.otpHash, r.expiresAt, k, r.createdAt, la⟩ := by
  intro k
  induction k with
  | zero =>
      intro _
      refine ⟨r.lastAttemptAt, ?_⟩
      have hz : verifyIter B now email wrong 0 store = store := rfl
      rw [hz, hGet, ← h0]
  | succ k ih =>
      intro hk
      obtain ⟨la, hla⟩ := ih (Nat.le_of_succ_le hk)
      have hkl : k < MAX_VERIFICATION_ATTEMPTS :=
        Nat.lt_of_lt_of_le (Nat.lt_succ_self k) hk
      refine ⟨some now, ?_⟩
      show ((verifyOTP B now (verifyIter B now email wrong k store) email
        wrong).2.1).get (normalizeEmail email) = _
      rw [verifyOTP_mismatched B now (verifyIter B now email wrong k store)
        email wrong ⟨r.otpHash, r.expiresAt, k, r.createdAt, la⟩ hE hO hla
        hNotExp hkl hW]
      rw [OTPStore.get_set_self]

/-- C1 counterexample: with a fresh record and the wrong (well-formed) code
`"000000"`, the 5th = `maxAttempts`-th verify call still reports the
mismatch outcome (`"Invalid OTP"`), NOT the attempts-exceeded outcome the
claim requires for the last call of the budget. -/
theorem attempts_sequence_cex :
    (verifyOTP bcryptRef 1 (verifyIter bcryptRef 1 "a@b.com" "000000" 4 wstore)
      "a@b.com" "000000").1 = ⟨false, some "Invalid OTP"⟩ ∧
    (verifyOTP bcryptRef 1 (verifyIter bcryptRef 1 "a@b.com" "000000" 4 wstore)
      "a@b.com" "000000").1 ≠
      ⟨false, some "Maximum verification attempts exceeded"⟩ := by decide

/-- C1 as amended: for a fresh record (attempts 0), every one of the first
`maxAttempts = 5` wrong-code calls before expiry — including the last —
reports the mismatch outcome `Invalid`; it is the NEXT call, here with the
correct code, that reports the attempts-exceeded outcome (and removes the
record), so the budget is not resurrected by the correct code. -/
theorem attempts_budget_sequence (B : BcryptModel) (now : Nat)
    (store : OTPStore) (email wrong correct : String) (r : OTPRecord)
    (hE : isValidEmail email = true) (hOw : isValidOTPFormat wrong = true)
    (hOc : isValidOTPFormat correct = true)
    (hGet : store.get (normalizeEmail email) = some r)
    (h0 : r.attempts = 0) (hNotExp : ¬ r.expiresAt < now)
    (hW : B.compare wrong r.otpHash = false)
    (hC : B.compare correct r.otpHash = true) :
    (∀ k < MAX_VERIFICATION_ATTEMPTS,
      (verifyOTP B now (verifyIter B now email wrong k store) email wrong).1 =
        ⟨false, some "Invalid OTP"⟩) ∧
    (verifyOTP B now
      (verifyIter B now email wrong MAX_VERIFICATION_ATTEMPTS store)
      email correct).1 =
      ⟨false, some "Maximum verification attempts exceeded"⟩ ∧
    (verifyOTP B now
      (verifyIter B now email wrong MAX_VERIFICATION_ATTEMPTS store)
      email correct).2.1.get (normalizeEmail email) = none := by
  have hiter := verifyIter_wrong_get B now store email wrong r hE hOw hGet h0
    hNotExp hW
  refine ⟨fun k hk => ?_, ?_, ?_⟩
  · obtain ⟨la, hla⟩ := hiter k (Nat.le_of_lt hk)
    rw [verifyOTP_mismatched B now (verifyIter B now email wrong k store)
      email wrong ⟨r.otpHash, r.expiresAt, k, r.createdAt, la⟩ hE hOw hla
      hNotExp hk hW]
  · obtain ⟨la, hla⟩ := hiter MAX_VERIFICATION_ATTEMPTS (Nat.le_refl _)
    rw [verifyOTP_exceeded B now
      (verifyIter B now email wrong MAX_VERIFICATION_ATTEMPTS store) email
      correct ⟨r.otpHash, r.expiresAt, MAX_VERIFICATION_ATTEMPTS, r.createdAt,
        la⟩ hE hOc hla hNotExp (Nat.le_refl _)]
  · obtain ⟨la, hla⟩ := hiter MAX_VERIFICATION_ATTEMPTS (Nat.le_refl _)
    rw [verifyOTP_exceeded B now
      (verifyIter B now email wrong MAX_VERIFICATION_ATTEMPTS store) email
      correct ⟨r.otpHash, r.expiresAt, MAX_VERIFICATION_ATTEMPTS, r.createdAt,
        la⟩ hE hOc hla hNotExp (Nat.le_refl _)]
    exact OTPStore.get_del_self _ _

/-- Witness for the amended C1 at the concrete fixture. -/
theorem attempts_budget_sequence_witness :
    (isValidEmail "a@b.com" = true ∧ isValidOTPFormat "000000" = true ∧
      isValidOTPFormat "482193" = true ∧
      wstore.get (normalizeEmail "a@b.com") = some wrec ∧
      wrec.attempts = 0 ∧ ¬ wrec.expiresAt < 1 ∧
      bcryptRef.compare "000000" wrec.otpHash = false ∧
      bcryptRef.compare "482193" wrec.otpHash = true) ∧
    ((∀ k < MAX_VERIFICATION_ATTEMPTS,
      (verifyOTP bcryptRef 1 (verifyIter bcryptRef 1 "a@b.com" "000000" k
        wstore) "a@b.com" "000000").1 = ⟨false, some "Invalid OTP"⟩) ∧
    (verifyOTP bcryptRef 1
      (verifyIter bcryptRef 1 "a@b.com" "000000" MAX_VERIFICATION_ATTEMPTS
        wstore) "a@b.com" "482193").1 =
      ⟨false, some "Maximum verification attempts exceeded"⟩ ∧
    (verifyOTP bcryptRef 1
      (verifyIter bcryptRef 1 "a@b.com" "000000" MAX_VERIFICATION_ATTEMPTS
        wstore) "a@b.com" "482193").2.1.get (normalizeEmail "a@b.com") =
      none) :=
  ⟨⟨by decide, by decide, by decide, by decide, by decide, by decide,
    by decide, by decide⟩,
    attempts_budget_sequence bcryptRef 1 wstore "a@b.com" "000000" "482193"
      wrec (by decide) (by decide) (by decide) (by decide) (by decide)
      (by decide) (by decide) (by decide)⟩
